import Mathlib

/-
Verification of the UAV endurance-estimator repository.

The repository is a family of near-duplicate Streamlit dashboards that map a
flat record of flight parameters to endurance / range / thermal metrics.
This file gives a shallow embedding of the calculation cores of the variants
the claims talk about:

  * uav_simulator_published_final.py  (the submitted handler, lines 57-119)
  * uav_estimator_hybrid_graph_verified.py (helpers and submitted handler)
  * UAV_Battery_Estimator_FULL.py     (numeric_input, thermal model,
                                       ISA air density, draw-floor line 805)
  * Final.py / main.py share the same helper formulas and are noted inline.

Python floats are modelled as exact rationals.  The two genuinely
transcendental operations of the sources, x ** 1.5 in the rotor hover-power
formula and math.sqrt in the convection correlation, are passed in as an
explicit function argument (pow15, sqrt); theorems that depend on their
behaviour assume exactly the monotonicity / positivity facts that the real
functions enjoy.  The ISA barometric density, whose exponent is irrational
in spirit, is embedded over the real numbers with rpow.
-/

/-- Flight modes offered by the selectbox of the estimator variants. -/
inductive FlightMode where
  | hover
  | forwardFlight
  | waypointMission
deriving DecidableEq

/-- Power system tag of a UAV profile (Battery or Hybrid in the tables of
the two embedded variants; the ICE-only branch of the FULL file is not
reached by any claim below). -/
inductive PowerSystem where
  | battery
  | hybrid
deriving DecidableEq

/-- Static UAV reference data, mirroring one row of the UAV_PROFILES
dictionaries (uav_simulator_published_final.py lines 8-19 and
uav_estimator_hybrid_graph_verified.py lines 13-24).  The crash_risk flag of
the hybrid-graph table is not read by the embedded handler and is omitted. -/
structure Profile where
  max_payload_g : ℚ
  base_weight_kg : ℚ
  power_system : PowerSystem
  draw_watt : ℚ
  battery_wh : ℚ
deriving DecidableEq

/-- User-entered flight parameters collected by the form of both variants. -/
structure FlightInputs where
  battery_capacity_wh : ℚ
  payload_weight_g : ℚ
  flight_speed_kmh : ℚ
  wind_speed_kmh : ℚ
  temperature_c : ℚ
  altitude_m : ℚ
  elevation_gain_m : ℚ
  flight_mode : FlightMode
deriving DecidableEq

/-- Errors surfaced by the submitted handler of
uav_simulator_published_final.py.  payloadExceeds is the error of line 60,
infeasible the stop of line 111, unexpected the generic try/except message of
line 122 (reachable only through a ZeroDivisionError of line 114, modelled
as an explicit zero-draw guard). -/
inductive SimError where
  | payloadExceeds
  | infeasible
  | unexpected
deriving DecidableEq

/-- Metrics displayed on success: flight time (line 117) and, for non-Hover
modes, the distance metric of line 119. -/
structure SimResult where
  flight_time_minutes : ℚ
  distance_km : Option ℚ
deriving DecidableEq

/-- Gravity constant of uav_estimator_hybrid_graph_verified.py line 7. -/
def GRAVITY : ℚ := 9.81

/-- Temperature derate of battery capacity
(uav_simulator_published_final.py lines 64-67, Final.py lines 33-36,
uav_estimator_hybrid_graph_verified.py lines 168-171,
UAV_Battery_Estimator_FULL.py lines 588-591 all contain this step). -/
def temperature_derate (temperature_c battery_wh : ℚ) : ℚ :=
  if temperature_c < 15 then battery_wh * 0.9
  else if temperature_c > 35 then battery_wh * 0.95
  else battery_wh

/-- Linear air-density factor, calculate_air_density_factor of
uav_estimator_hybrid_graph_verified.py lines 26-27 and main.py lines
108-109; the same expression is inlined at
uav_simulator_published_final.py line 69. -/
def calculate_air_density_factor (altitude_m : ℚ) : ℚ :=
  max 0.6 (1 - 0.01 * (altitude_m / 100))

/-- Climb / descent adjustment of the available battery
(uav_simulator_published_final.py lines 102-108): climbing subtracts
m g dh / 3600 Wh, descending recovers 20 percent of it. -/
def elevation_adjust (total_weight_kg elevation_gain_m battery_wh : ℚ) : ℚ :=
  if elevation_gain_m > 0 then
    battery_wh - total_weight_kg * 9.81 * elevation_gain_m / 3600
  else if elevation_gain_m < 0 then
    battery_wh + (total_weight_kg * 9.81 * |elevation_gain_m| / 3600) * 0.2
  else battery_wh

/-- Load-dependent efficiency penalty of
uav_simulator_published_final.py lines 80-86 (step function of the
payload-to-max-lift fraction). -/
def efficiency_penalty (load_frac : ℚ) : ℚ :=
  if 0.7 ≤ load_frac ∧ load_frac < 0.9 then 1.1
  else if 0.9 ≤ load_frac ∧ load_frac ≤ 1.0 then 1.25
  else if load_frac > 1.0 then 1.4
  else 1

/-- Mode-dependent power draw of uav_simulator_published_final.py lines
70-77; the hover power uses 170 * w ** 1.5 / density_factor, with the
1.5-power supplied as the argument pow15. -/
def pub_total_power_draw (pow15 : ℚ → ℚ) (mode : FlightMode)
    (total_weight_kg flight_speed_kmh wind_speed_kmh altitude_m : ℚ) : ℚ :=
  let hover_power := 170 * pow15 total_weight_kg / calculate_air_density_factor altitude_m
  match mode with
  | FlightMode.hover => hover_power
  | FlightMode.forwardFlight =>
      hover_power * 1.15 + 0.02 * flight_speed_kmh ^ 2 + 0.3 * wind_speed_kmh
  | FlightMode.waypointMission =>
      hover_power * 1.25 + 0.022 * flight_speed_kmh ^ 2 + 0.36 * wind_speed_kmh

/-- Hybrid drag factor of uav_simulator_published_final.py lines 90-97:
a speed / altitude dependent factor times a mass penalty, capped at 2.2. -/
def hybrid_drag_factor (mode : FlightMode)
    (flight_speed_kmh altitude_m total_weight_kg : ℚ) : ℚ :=
  let drag_factor :=
    match mode with
    | FlightMode.hover => 1
    | FlightMode.forwardFlight =>
        1 + 0.01 * flight_speed_kmh + 0.001 * (altitude_m / 100)
    | FlightMode.waypointMission =>
        1 + 0.012 * flight_speed_kmh + 0.0012 * (altitude_m / 100)
  min (drag_factor * (1 + 0.003 * total_weight_kg)) 2.2

/-- Total draw of uav_simulator_published_final.py lines 88-100: hybrid
platforms use the base draw times the capped drag factor, battery platforms
the mode draw times the load efficiency penalty.  Custom builds are
represented by a battery profile, matching the Python condition that the
hybrid branch requires a non-custom model. -/
def pub_total_draw (pow15 : ℚ → ℚ) (profile : Profile) (inp : FlightInputs) : ℚ :=
  let total_weight_kg := profile.base_weight_kg + inp.payload_weight_g / 1000
  match profile.power_system with
  | PowerSystem.hybrid =>
      profile.draw_watt *
        hybrid_drag_factor inp.flight_mode inp.flight_speed_kmh inp.altitude_m total_weight_kg
  | PowerSystem.battery =>
      pub_total_power_draw pow15 inp.flight_mode total_weight_kg
          inp.flight_speed_kmh inp.wind_speed_kmh inp.altitude_m *
        efficiency_penalty
          (if profile.max_payload_g > 0 then inp.payload_weight_g / profile.max_payload_g else 0)

/-- Battery capacity reaching the flight-time division in
uav_simulator_published_final.py: the input capacity after the temperature
derate (lines 64-67) and the climb / descent adjustment (lines 102-108). -/
def pub_battery2 (profile : Profile) (inp : FlightInputs) : ℚ :=
  elevation_adjust (profile.base_weight_kg + inp.payload_weight_g / 1000)
    inp.elevation_gain_m
    (temperature_derate inp.temperature_c inp.battery_capacity_wh)

/-- Flight time of uav_simulator_published_final.py lines 114-115:
battery over draw times 60, silently capped at 120 minutes. -/
def pub_flight_time (battery_capacity_wh total_draw : ℚ) : ℚ :=
  min ((battery_capacity_wh / total_draw) * 60) 120

/-- Displayed metrics of uav_simulator_published_final.py lines 117-119:
the capped flight time, and for non-Hover modes the distance recomputed
from that time and the flight speed. -/
def pub_result (mode : FlightMode) (flight_speed_kmh battery_capacity_wh total_draw : ℚ) :
    SimResult :=
  let flight_time_minutes := pub_flight_time battery_capacity_wh total_draw
  { flight_time_minutes := flight_time_minutes
    distance_km :=
      match mode with
      | FlightMode.hover => none
      | _ => some ((flight_time_minutes / 60) * flight_speed_kmh) }

/-- Submitted handler of uav_simulator_published_final.py lines 57-119:
reject payload over max lift, derate and adjust the battery, compute the
draw, stop when the battery is exhausted, otherwise report time and
distance.  A zero total draw is mapped to the generic unexpected error of
the surrounding try/except (a ZeroDivisionError in Python). -/
def submitted_published (pow15 : ℚ → ℚ) (profile : Profile) (inp : FlightInputs) :
    Except SimError SimResult :=
  if inp.payload_weight_g > profile.max_payload_g then
    Except.error SimError.payloadExceeds
  else if pub_battery2 profile inp ≤ 0 then
    Except.error SimError.infeasible
  else if pub_total_draw pow15 profile inp = 0 then
    Except.error SimError.unexpected
  else
    Except.ok (pub_result inp.flight_mode inp.flight_speed_kmh
      (pub_battery2 profile inp) (pub_total_draw pow15 profile inp))

/-- Generic Quad row of the published-final profile table
(uav_simulator_published_final.py line 9). -/
def genericQuad_published : Profile :=
  { max_payload_g := 800, base_weight_kg := 1.2,
    power_system := PowerSystem.battery, draw_watt := 170, battery_wh := 60 }

/-- MQ-9 Reaper row of the published-final profile table
(uav_simulator_published_final.py line 14). -/
def mq9Reaper_published : Profile :=
  { max_payload_g := 1700000, base_weight_kg := 2223,
    power_system := PowerSystem.hybrid, draw_watt := 1100, battery_wh := 200 }

/-- Generic Quad row of the hybrid-graph profile table
(uav_estimator_hybrid_graph_verified.py line 14). -/
def genericQuad_hg : Profile :=
  { max_payload_g := 800, base_weight_kg := 1.2,
    power_system := PowerSystem.battery, draw_watt := 150, battery_wh := 60 }

/-- Phase names of the hybrid power model
(uav_estimator_hybrid_graph_verified.py lines 30-37). -/
inductive Phase where
  | climbPhase
  | cruisePhase
  | descentPhase
deriving DecidableEq

/-- hybrid_power_model of uav_estimator_hybrid_graph_verified.py lines
30-37. -/
def hybrid_power_model (base_draw : ℚ) (phase : Phase) (speed_kmh : ℚ) : ℚ :=
  match phase with
  | Phase.climbPhase => base_draw * 1.25 + 0.01 * speed_kmh
  | Phase.cruisePhase => base_draw * 1 + 0.005 * speed_kmh
  | Phase.descentPhase => base_draw * 0.75

/-- compute_power_draw of uav_estimator_hybrid_graph_verified.py lines
39-55 (the table only contains Battery and Hybrid systems, so the
fall-through return for other systems is unreachable and not modelled). -/
def compute_power_draw (base_draw : ℚ) (power_system : PowerSystem)
    (flight_mode : FlightMode) (speed_kmh : ℚ) : ℚ :=
  match power_system with
  | PowerSystem.hybrid =>
      match flight_mode with
      | FlightMode.waypointMission => hybrid_power_model base_draw Phase.climbPhase speed_kmh
      | FlightMode.forwardFlight => hybrid_power_model base_draw Phase.cruisePhase speed_kmh
      | FlightMode.hover => hybrid_power_model base_draw Phase.descentPhase speed_kmh
  | PowerSystem.battery =>
      match flight_mode with
      | FlightMode.hover => base_draw * 1.1
      | FlightMode.waypointMission => base_draw * 1.15 + 0.02 * speed_kmh ^ 2
      | FlightMode.forwardFlight => base_draw + 0.02 * speed_kmh ^ 2

/-- apply_wind_drag of uav_estimator_hybrid_graph_verified.py lines 57-65. -/
def apply_wind_drag (draw_watt wind_speed_kmh flight_speed_kmh : ℚ)
    (flight_mode : FlightMode) (enabled : Bool) : ℚ :=
  match enabled, flight_mode with
  | false, _ => draw_watt
  | true, FlightMode.hover => draw_watt
  | true, _ =>
    let relative_speed := flight_speed_kmh - wind_speed_kmh
    if relative_speed ≤ 0 then draw_watt * 1.25 + 0.03 * |relative_speed| ^ 2
    else if wind_speed_kmh > 0 then draw_watt * 0.95 - 0.01 * wind_speed_kmh
    else draw_watt

/-- calculate_flight_time of uav_estimator_hybrid_graph_verified.py lines
122-124: the draw is floored at 0.1 W, never rejected. -/
def calculate_flight_time (battery_wh draw_watt : ℚ) : ℚ :=
  (battery_wh / max draw_watt 0.1) * 60

/-- compute_elevation_effect of uav_estimator_hybrid_graph_verified.py
lines 126-133 and main.py lines 138-145. -/
def compute_elevation_effect (weight_kg elevation_gain_m : ℚ) : ℚ :=
  if elevation_gain_m > 0 then -(weight_kg * GRAVITY * elevation_gain_m) / 3600
  else if elevation_gain_m < 0 then (weight_kg * GRAVITY * |elevation_gain_m| / 3600) * 0.2
  else 0

/-- Battery capacity reaching the flight-time division in
uav_estimator_hybrid_graph_verified.py lines 178-179: derate, add the
elevation effect, then clamp to at least 0.1 Wh. -/
def hg_battery2 (profile : Profile) (inp : FlightInputs) : ℚ :=
  max (temperature_derate inp.temperature_c inp.battery_capacity_wh +
        compute_elevation_effect (profile.base_weight_kg + inp.payload_weight_g / 1000)
          inp.elevation_gain_m)
    0.1

/-- Power draw reaching the flight-time division in
uav_estimator_hybrid_graph_verified.py lines 175-176. -/
def hg_draw (profile : Profile) (inp : FlightInputs) (wind_effects_enabled : Bool) : ℚ :=
  apply_wind_drag
    (compute_power_draw profile.draw_watt profile.power_system inp.flight_mode
      inp.flight_speed_kmh)
    inp.wind_speed_kmh inp.flight_speed_kmh inp.flight_mode wind_effects_enabled

/-- Submitted handler of uav_estimator_hybrid_graph_verified.py lines
161-185: reject payload over max lift, otherwise always produce a flight
time (the battery is clamped to 0.1 Wh, the draw floored at 0.1 W, so no
infeasibility stop exists in this variant). -/
def submitted_hybrid_graph (profile : Profile) (inp : FlightInputs)
    (wind_effects_enabled : Bool) : Except SimError SimResult :=
  if inp.payload_weight_g > profile.max_payload_g then
    Except.error SimError.payloadExceeds
  else
    let flight_minutes :=
      calculate_flight_time (hg_battery2 profile inp)
        (hg_draw profile inp wind_effects_enabled)
    Except.ok
      { flight_time_minutes := flight_minutes
        distance_km :=
          match inp.flight_mode with
          | FlightMode.hover => none
          | _ => some ((flight_minutes / 60) * inp.flight_speed_kmh) }

/-- numeric_input of UAV_Battery_Estimator_FULL.py lines 43-52: blank text
returns the default, unparsable text returns the default after an error
message, otherwise the parsed value.  Python float parsing is supplied as
the argument parseFloat. -/
def numeric_input (parseFloat : String → Option ℚ) (label : String) (default : ℚ)
    (val_str : String) : ℚ :=
  if val_str.trim = "" then default
  else
    match parseFloat val_str with
    | some v => v
    | none => default

/-- Sea-level density constant of UAV_Battery_Estimator_FULL.py line 113. -/
def RHO0 : ℚ := 1.225

/-- Sea-level pressure constant of UAV_Battery_Estimator_FULL.py line 114. -/
def P0 : ℚ := 101325

/-- Temperature lapse rate of UAV_Battery_Estimator_FULL.py line 116. -/
def LAPSE : ℚ := 0.0065

/-- Specific gas constant of UAV_Battery_Estimator_FULL.py line 117. -/
def R_AIR : ℚ := 287.05

/-- Standard gravity of UAV_Battery_Estimator_FULL.py line 118. -/
def G0 : ℚ := 9.80665

/-- Stefan-Boltzmann constant of UAV_Battery_Estimator_FULL.py line 119. -/
def SIGMA : ℚ := 5.670374419e-8

/-- Thermal realism cap of UAV_Battery_Estimator_FULL.py line 231. -/
def THERMAL_CAP_C : ℚ := 80

/-- air_density of UAV_Battery_Estimator_FULL.py lines 163-169: ISA
troposphere density (documented as valid up to about 11 km).  The
barometric exponent G0 / (R_AIR * LAPSE) is irrational in spirit, so the
formula lives over the reals with rpow. -/
noncomputable def air_density (alt_m sea_level_temp_C : ℚ) : ℝ :=
  let T0 : ℝ := (sea_level_temp_C : ℝ) + 273.15
  let alt : ℝ := if (alt_m : ℝ) < 0 then 0 else (alt_m : ℝ)
  let T : ℝ := max 1 (T0 - (LAPSE : ℝ) * alt)
  let p : ℝ := (P0 : ℝ) * (1 - ((LAPSE : ℝ) * alt) / T0) ^ ((G0 : ℝ) / ((R_AIR : ℝ) * (LAPSE : ℝ)))
  p / ((R_AIR : ℝ) * T)

/-- convective_radiative_deltaT_geom of UAV_Battery_Estimator_FULL.py lines
234-270, with math.sqrt supplied as the argument sqrt. -/
def convective_radiative_deltaT_geom (sqrt : ℚ → ℚ)
    (Q_shaft_W hotel_W surface_area_m2 emissivity ambient_C rho V_ms
      power_fraction_to_skin : ℚ) : ℚ :=
  if surface_area_m2 ≤ 0 ∨ emissivity ≤ 0 then 0
  else
    let V := max 0.5 V_ms
    let Q_skin := max 0 (Q_shaft_W * max 0 power_fraction_to_skin + hotel_W * 0.60)
    let h_nat : ℚ := 6
    let h_forced := 10.45 - V + 10 * sqrt V
    let h := max h_nat h_forced * (rho / RHO0)
    let T_ambK := ambient_C + 273.15
    let rad_coeff := 4 * emissivity * SIGMA * T_ambK ^ 3
    let sink_W_per_K := (h + rad_coeff) * surface_area_m2
    if sink_W_per_K ≤ 0 then 0
    else max 0.2 (min THERMAL_CAP_C (Q_skin / sink_W_per_K))

/-- Raw endurance of UAV_Battery_Estimator_FULL.py line 805: usable energy
over the total draw floored at 5 W, times 60. -/
def t_raw_min (usable_Wh total_draw : ℚ) : ℚ :=
  (usable_Wh / max 5 total_draw) * 60

/-- Concrete scenario: Generic Quad at exactly its maximum payload with a
1000 m climb on a 1 Wh pack (within the widget minimum of the form). -/
def inpC1max : FlightInputs :=
  { battery_capacity_wh := 1, payload_weight_g := 800, flight_speed_kmh := 30,
    wind_speed_kmh := 10, temperature_c := 25, altitude_m := 0,
    elevation_gain_m := 1000, flight_mode := FlightMode.hover }

/-- Concrete scenario: Generic Quad at maximum payload with no climb. -/
def inpC1ok : FlightInputs :=
  { battery_capacity_wh := 60, payload_weight_g := 800, flight_speed_kmh := 30,
    wind_speed_kmh := 10, temperature_c := 25, altitude_m := 0,
    elevation_gain_m := 0, flight_mode := FlightMode.hover }

/-- Concrete scenario for the published-variant infeasibility abort:
half payload, 1 Wh pack, 1000 m climb. -/
def inpC2pub : FlightInputs :=
  { battery_capacity_wh := 1, payload_weight_g := 400, flight_speed_kmh := 30,
    wind_speed_kmh := 10, temperature_c := 25, altitude_m := 0,
    elevation_gain_m := 1000, flight_mode := FlightMode.hover }

/-- Concrete scenario for the hybrid-graph variant: a 1000 m climb that
drives the 1 Wh pack to -2.27 Wh before the clamp. -/
def inpC2hg : FlightInputs :=
  { battery_capacity_wh := 1, payload_weight_g := 0, flight_speed_kmh := 30,
    wind_speed_kmh := 0, temperature_c := 25, altitude_m := 0,
    elevation_gain_m := 1000, flight_mode := FlightMode.forwardFlight }

/-- Concrete scenario: Generic Quad defaults in Forward Flight. -/
def inpC3 : FlightInputs :=
  { battery_capacity_wh := 60, payload_weight_g := 0, flight_speed_kmh := 30,
    wind_speed_kmh := 10, temperature_c := 25, altitude_m := 0,
    elevation_gain_m := 0, flight_mode := FlightMode.forwardFlight }

/-- Concrete scenario: MQ-9 Reaper (hybrid) on a 1000 m descent, where the
drag factor is at its 2.2 cap; the payload field is overridden in the
monotonicity counterexample. -/
def inpC4 : FlightInputs :=
  { battery_capacity_wh := 200, payload_weight_g := 0, flight_speed_kmh := 30,
    wind_speed_kmh := 10, temperature_c := 25, altitude_m := 0,
    elevation_gain_m := -1000, flight_mode := FlightMode.hover }

/-- Concrete scenario for the payload-monotonicity witness: Generic Quad
hovering with no elevation change. -/
def inpC4w : FlightInputs :=
  { battery_capacity_wh := 60, payload_weight_g := 0, flight_speed_kmh := 30,
    wind_speed_kmh := 10, temperature_c := 25, altitude_m := 0,
    elevation_gain_m := 0, flight_mode := FlightMode.hover }

/-- Concrete scenario for the temperature-derate witness; the temperature
field is overridden to 10 and 25 in the claim theorem. -/
def inpC5 : FlightInputs :=
  { battery_capacity_wh := 60, payload_weight_g := 0, flight_speed_kmh := 30,
    wind_speed_kmh := 10, temperature_c := 25, altitude_m := 0,
    elevation_gain_m := 0, flight_mode := FlightMode.hover }

/-- Concrete scenario: Generic Quad defaults hovering at sea level. -/
def inpC9 : FlightInputs :=
  { battery_capacity_wh := 60, payload_weight_g := 0, flight_speed_kmh := 30,
    wind_speed_kmh := 10, temperature_c := 25, altitude_m := 0,
    elevation_gain_m := 0, flight_mode := FlightMode.hover }

/-
Helper lemmas.  These are general facts about the embedded definitions,
shared by the claim theorems below.
-/

/-- The linear air-density factor is bounded below by 0.6, hence positive. -/
theorem calculate_air_density_factor_pos (altitude_m : ℚ) :
    0 < calculate_air_density_factor altitude_m :=
  lt_of_lt_of_le (by norm_num) (le_max_left _ _)

/-- The load efficiency penalty is at least 1. -/
theorem one_le_efficiency_penalty (load_frac : ℚ) : 1 ≤ efficiency_penalty load_frac := by
  unfold efficiency_penalty
  split_ifs <;> norm_num

/-- The load efficiency penalty takes one of four values on four ordered
intervals of the load fraction. -/
theorem efficiency_penalty_cases (x : ℚ) :
    (x < 0.7 ∧ efficiency_penalty x = 1) ∨
    (0.7 ≤ x ∧ x < 0.9 ∧ efficiency_penalty x = 1.1) ∨
    (0.9 ≤ x ∧ x ≤ 1.0 ∧ efficiency_penalty x = 1.25) ∨
    (1.0 < x ∧ efficiency_penalty x = 1.4) := by
  unfold efficiency_penalty
  rcases lt_or_le x 0.7 with h1 | h1
  · refine Or.inl ⟨h1, ?_⟩
    rw [if_neg (by rintro ⟨a, b⟩; linarith), if_neg (by rintro ⟨a, b⟩; linarith),
      if_neg (by intro a; linarith)]
  · rcases lt_or_le x 0.9 with h2 | h2
    · exact Or.inr (Or.inl ⟨h1, h2, by rw [if_pos ⟨h1, h2⟩]⟩)
    · rcases le_or_lt x 1.0 with h3 | h3
      · refine Or.inr (Or.inr (Or.inl ⟨h2, h3, ?_⟩))
        rw [if_neg (by rintro ⟨a, b⟩; linarith), if_pos ⟨h2, h3⟩]
      · refine Or.inr (Or.inr (Or.inr ⟨h3, ?_⟩))
        rw [if_neg (by rintro ⟨a, b⟩; linarith), if_neg (by rintro ⟨a, b⟩; linarith),
          if_pos h3]

/-- The load efficiency penalty is a nondecreasing step function. -/
theorem efficiency_penalty_mono {r s : ℚ} (hrs : r ≤ s) :
    efficiency_penalty r ≤ efficiency_penalty s := by
  rcases efficiency_penalty_cases r with ⟨h1, e1⟩ | ⟨h1, h1b, e1⟩ | ⟨h1, h1b, e1⟩ | ⟨h1, e1⟩ <;>
  rcases efficiency_penalty_cases s with ⟨h2, e2⟩ | ⟨h2, h2b, e2⟩ | ⟨h2, h2b, e2⟩ | ⟨h2, e2⟩ <;>
  rw [e1, e2] <;> try norm_num
  all_goals linarith

/-- The mode-dependent published power draw is positive whenever the
1.5-power of the weight is positive and speed and wind are nonnegative. -/
theorem pub_total_power_draw_pos (pow15 : ℚ → ℚ) (mode : FlightMode)
    (w s wind alt : ℚ) (h15 : 0 < pow15 w) (hs : 0 ≤ s) (hwind : 0 ≤ wind) :
    0 < pub_total_power_draw pow15 mode w s wind alt := by
  have hd := calculate_air_density_factor_pos alt
  unfold pub_total_power_draw
  cases mode <;> dsimp only <;> positivity

/-- The mode-dependent published power draw is monotone in the 1.5-power
of the weight. -/
theorem pub_total_power_draw_mono (pow15 : ℚ → ℚ) (mode : FlightMode)
    (w1 w2 s wind alt : ℚ) (h15 : pow15 w1 ≤ pow15 w2) :
    pub_total_power_draw pow15 mode w1 s wind alt ≤
      pub_total_power_draw pow15 mode w2 s wind alt := by
  have hd := calculate_air_density_factor_pos alt
  unfold pub_total_power_draw
  cases mode <;> dsimp only <;> gcongr

/-- The mode-dependent published power draw is nonnegative under the same
conditions as positivity, with the 1.5-power merely nonnegative. -/
theorem pub_total_power_draw_nonneg (pow15 : ℚ → ℚ) (mode : FlightMode)
    (w s wind alt : ℚ) (h15 : 0 ≤ pow15 w) (hs : 0 ≤ s) (hwind : 0 ≤ wind) :
    0 ≤ pub_total_power_draw pow15 mode w s wind alt := by
  have hd := calculate_air_density_factor_pos alt
  unfold pub_total_power_draw
  cases mode <;> dsimp only <;> positivity

/-- The capped hybrid drag factor is at least 1 for nonnegative speed,
altitude and weight. -/
theorem one_le_hybrid_drag_factor (mode : FlightMode) (s alt w : ℚ)
    (hs : 0 ≤ s) (halt : 0 ≤ alt) (hw : 0 ≤ w) :
    1 ≤ hybrid_drag_factor mode s alt w := by
  unfold hybrid_drag_factor
  cases mode <;> dsimp only <;>
    exact le_min (by nlinarith) (by norm_num)

/-- The capped hybrid drag factor is monotone in the total weight. -/
theorem hybrid_drag_factor_mono (mode : FlightMode) (s alt w1 w2 : ℚ)
    (hs : 0 ≤ s) (halt : 0 ≤ alt) (hw : w1 ≤ w2) :
    hybrid_drag_factor mode s alt w1 ≤ hybrid_drag_factor mode s alt w2 := by
  unfold hybrid_drag_factor
  cases mode <;> dsimp only <;>
    exact min_le_min (by nlinarith) le_rfl

/-- The published total draw is positive under the natural sign conditions
on the inputs. -/
theorem pub_total_draw_pos (pow15 : ℚ → ℚ) (profile : Profile) (inp : FlightInputs)
    (h15 : 0 < pow15 (profile.base_weight_kg + inp.payload_weight_g / 1000))
    (hdw : 0 < profile.draw_watt)
    (hw : 0 ≤ profile.base_weight_kg + inp.payload_weight_g / 1000)
    (hs : 0 ≤ inp.flight_speed_kmh) (hwind : 0 ≤ inp.wind_speed_kmh)
    (halt : 0 ≤ inp.altitude_m) :
    0 < pub_total_draw pow15 profile inp := by
  unfold pub_total_draw
  obtain ⟨mx, bw, ps, dw, bb⟩ := profile
  cases ps <;> dsimp only at *
  · exact mul_pos
      (pub_total_power_draw_pos pow15 inp.flight_mode _ _ _ _ h15 hs hwind)
      (lt_of_lt_of_le one_pos (one_le_efficiency_penalty _))
  · exact mul_pos hdw
      (lt_of_lt_of_le one_pos
        (one_le_hybrid_drag_factor inp.flight_mode _ _ _ hs halt hw))

/-- The published total draw is monotone in the payload weight, all other
inputs held fixed. -/
theorem pub_total_draw_mono_payload (pow15 : ℚ → ℚ) (profile : Profile)
    (inp : FlightInputs) (p q : ℚ) (hpq : p ≤ q)
    (h15 : pow15 (profile.base_weight_kg + p / 1000) ≤
      pow15 (profile.base_weight_kg + q / 1000))
    (h15p : 0 ≤ pow15 (profile.base_weight_kg + p / 1000))
    (hdw : 0 ≤ profile.draw_watt)
    (hs : 0 ≤ inp.flight_speed_kmh) (hwind : 0 ≤ inp.wind_speed_kmh)
    (halt : 0 ≤ inp.altitude_m) :
    pub_total_draw pow15 profile {inp with payload_weight_g := p} ≤
      pub_total_draw pow15 profile {inp with payload_weight_g := q} := by
  unfold pub_total_draw
  obtain ⟨mx, bw, ps, dw, bb⟩ := profile
  cases ps <;> dsimp only at *
  · -- battery branch: draw times penalty, both monotone and nonnegative
    have hload : (if mx > 0 then p / mx else 0) ≤ (if mx > 0 then q / mx else 0) := by
      split_ifs with hmx
      · exact (div_le_div_right hmx).mpr hpq
      · exact le_rfl
    exact mul_le_mul
      (pub_total_power_draw_mono pow15 inp.flight_mode _ _ _ _ _ h15)
      (efficiency_penalty_mono hload)
      (le_trans zero_le_one (one_le_efficiency_penalty _))
      (pub_total_power_draw_nonneg pow15 inp.flight_mode _ _ _ _
        (le_trans h15p h15) hs hwind)
  · -- hybrid branch: base draw times the monotone capped drag factor
    exact mul_le_mul_of_nonneg_left
      (hybrid_drag_factor_mono inp.flight_mode _ _ _ _ hs halt (by linarith)) hdw

/-- The battery reaching the division is monotone in its derated input. -/
theorem elevation_adjust_mono_battery (w e b1 b2 : ℚ) (h : b1 ≤ b2) :
    elevation_adjust w e b1 ≤ elevation_adjust w e b2 := by
  unfold elevation_adjust
  split_ifs <;> linarith

/-- With no descent (elevation gain nonnegative) the battery reaching the
division is antitone in the payload weight. -/
theorem pub_battery2_antitone_payload (profile : Profile) (inp : FlightInputs)
    (p q : ℚ) (hpq : p ≤ q) (helev : 0 ≤ inp.elevation_gain_m) :
    pub_battery2 profile {inp with payload_weight_g := q} ≤
      pub_battery2 profile {inp with payload_weight_g := p} := by
  unfold pub_battery2 elevation_adjust
  dsimp only
  split_ifs with h1 h2
  · nlinarith
  · linarith
  · exact le_rfl

/-- The capped flight time is monotone: less battery and more draw never
lengthen the reported time. -/
theorem pub_flight_time_mono (B1 B2 D1 D2 : ℚ) (hB : B2 ≤ B1) (hB2 : 0 ≤ B2)
    (hD1 : 0 < D1) (hD : D1 ≤ D2) :
    pub_flight_time B2 D2 ≤ pub_flight_time B1 D1 := by
  unfold pub_flight_time
  have hdiv : B2 / D2 ≤ B1 / D1 := by
    calc B2 / D2 ≤ B2 / D1 := by gcongr
    _ ≤ B1 / D1 := by gcongr
  exact min_le_min (by linarith) le_rfl

/-- Inversion of the published handler: a success result happens exactly
when the payload fits, the adjusted battery is positive and the draw is
nonzero, and then the result is the reported time and distance pair. -/
theorem submitted_published_eq_ok_iff (pow15 : ℚ → ℚ) (profile : Profile)
    (inp : FlightInputs) (r : SimResult) :
    submitted_published pow15 profile inp = Except.ok r ↔
      inp.payload_weight_g ≤ profile.max_payload_g ∧
      0 < pub_battery2 profile inp ∧
      pub_total_draw pow15 profile inp ≠ 0 ∧
      r = pub_result inp.flight_mode inp.flight_speed_kmh
            (pub_battery2 profile inp) (pub_total_draw pow15 profile inp) := by
  constructor
  · intro h
    unfold submitted_published at h
    split_ifs at h with h1 h2 h3
    all_goals first
      | exact Except.noConfusion h
      | exact ⟨not_lt.mp h1, not_le.mp h2, h3, (Except.ok.inj h).symm⟩
  · rintro ⟨hpay, hB, hD, rfl⟩
    unfold submitted_published
    rw [if_neg (not_lt.mpr hpay), if_neg (not_le.mpr hB), if_neg hD]

/-
Claim theorems.
-/

/-- C8: the thermal-signature estimate returned by the convective/radiative
model is always nonnegative and clamped to at most 80 degrees above
ambient, for every input and every square-root function supplied for the
convection correlation. -/
theorem thermal_deltaT_clamped (sqrt : ℚ → ℚ)
    (Q_shaft_W hotel_W surface_area_m2 emissivity ambient_C rho V_ms pfs : ℚ) :
    0 ≤ convective_radiative_deltaT_geom sqrt Q_shaft_W hotel_W surface_area_m2
        emissivity ambient_C rho V_ms pfs ∧
    convective_radiative_deltaT_geom sqrt Q_shaft_W hotel_W surface_area_m2
        emissivity ambient_C rho V_ms pfs ≤ 80 := by
  unfold convective_radiative_deltaT_geom
  split_ifs with h1
  · norm_num
  · constructor
    · dsimp only
      split_ifs with h2
      · norm_num
      · exact le_trans (by norm_num) (le_max_left _ _)
    · dsimp only
      split_ifs with h2
      · norm_num
      · exact max_le (by norm_num)
          (le_trans (min_le_left _ _) (by norm_num [THERMAL_CAP_C]))

/-- C7 counterexample: at a total draw of exactly zero both flight-time
computations return a finite numeric value (36000 and 1200 minutes) instead
of rejecting the input with an error. -/
theorem zero_draw_counterexample :
    calculate_flight_time 60 0 = 36000 ∧ t_raw_min 100 0 = 1200 := by
  constructor
  · norm_num [calculate_flight_time]
  · norm_num [t_raw_min]

/-- C7 (amended): a zero or tiny draw is not rejected; the draw is floored
at 0.1 W in the hybrid-graph variant and at 5 W in the aerospace variant,
and a finite flight time is produced from the floor. -/
theorem zero_draw_clamped (b d u e : ℚ) (hd : d ≤ 0.1) (he : e ≤ 5) :
    calculate_flight_time b d = (b / 0.1) * 60 ∧ t_raw_min u e = (u / 5) * 60 := by
  constructor
  · unfold calculate_flight_time
    rw [max_eq_right hd]
  · unfold t_raw_min
    rw [max_eq_left he]

/-- Witness for the amended C7 at a zero draw. -/
theorem zero_draw_clamped_witness :
    calculate_flight_time 60 0 = ((60 : ℚ) / 0.1) * 60 ∧
    t_raw_min 100 0 = ((100 : ℚ) / 5) * 60 :=
  zero_draw_clamped 60 0 100 0 (by norm_num) (by norm_num)

/-- C10: blank or unparsable text entered in a numeric field of the
aerospace variant comes back as the supplied default value instead of an
exception, for every parsing function and every label. -/
theorem numeric_input_default (parseFloat : String → Option ℚ) (label : String)
    (d : ℚ) (s : String) (h : s.trim = "" ∨ parseFloat s = none) :
    numeric_input parseFloat label d s = d := by
  unfold numeric_input
  rcases h with h | h
  · rw [if_pos h]
  · split_ifs with h2
    · rfl
    · rw [h]

/-- Witness for C10 on an unparsable string. -/
theorem numeric_input_default_witness :
    numeric_input (fun _ => none) "Speed (km/h)" 30 "abc" = 30 :=
  numeric_input_default (fun _ => none) "Speed (km/h)" 30 "abc" (Or.inr rfl)

/-- C3: whenever the published handler reports a result in a non-Hover
flight mode, the displayed distance equals the displayed flight time
divided by 60 and multiplied by the flight speed. -/
theorem distance_time_roundtrip (pow15 : ℚ → ℚ) (profile : Profile)
    (inp : FlightInputs) (r : SimResult)
    (h : submitted_published pow15 profile inp = Except.ok r)
    (hmode : inp.flight_mode ≠ FlightMode.hover) :
    r.distance_km = some ((r.flight_time_minutes / 60) * inp.flight_speed_kmh) := by
  obtain ⟨-, -, -, rfl⟩ := (submitted_published_eq_ok_iff pow15 profile inp r).mp h
  cases hm : inp.flight_mode
  · exact absurd hm hmode
  · rfl
  · rfl

/-- Witness for C3 on the Generic Quad default scenario. -/
theorem distance_time_roundtrip_witness :
    (some ((500 : ℚ) / 71) : Option ℚ) = some (((1000 : ℚ) / 71 / 60) * 30) :=
  distance_time_roundtrip id genericQuad_published inpC3
    { flight_time_minutes := 1000 / 71, distance_km := some (500 / 71) }
    (by norm_num [submitted_published, genericQuad_published, inpC3, pub_battery2,
      pub_total_draw, pub_total_power_draw, temperature_derate, elevation_adjust,
      calculate_air_density_factor, hybrid_drag_factor, efficiency_penalty,
      pub_result, pub_flight_time])
    (by decide)

/-- C9: every flight time reported by the published handler equals the
battery-over-draw quotient times 60 capped at 120 minutes, and therefore
never exceeds 120 minutes. -/
theorem flight_time_cap (pow15 : ℚ → ℚ) (profile : Profile) (inp : FlightInputs)
    (r : SimResult) (h : submitted_published pow15 profile inp = Except.ok r) :
    r.flight_time_minutes =
      min ((pub_battery2 profile inp / pub_total_draw pow15 profile inp) * 60) 120 ∧
    r.flight_time_minutes ≤ 120 := by
  obtain ⟨-, -, -, rfl⟩ := (submitted_published_eq_ok_iff pow15 profile inp r).mp h
  refine ⟨rfl, ?_⟩
  show min _ (120 : ℚ) ≤ 120
  exact min_le_right _ _

/-- Witness for C9 on the Generic Quad default scenario. -/
theorem flight_time_cap_witness :
    ((300 : ℚ) / 17 =
      min ((pub_battery2 genericQuad_published inpC9 /
        pub_total_draw id genericQuad_published inpC9) * 60) 120) ∧
    (300 : ℚ) / 17 ≤ 120 :=
  flight_time_cap id genericQuad_published inpC9
    { flight_time_minutes := 300 / 17, distance_km := none }
    (by norm_num [submitted_published, genericQuad_published, inpC9, pub_battery2,
      pub_total_draw, pub_total_power_draw, temperature_derate, elevation_adjust,
      calculate_air_density_factor, hybrid_drag_factor, efficiency_penalty,
      pub_result, pub_flight_time])

/-- C1 counterexample: with the Generic Quad profile at exactly its maximum
payload (800 g) and a 1000 m climb on a 1 Wh pack, the published handler
accepts the payload but stops with the infeasibility message, so no numeric
result is produced even though payload equals the maximum. -/
theorem payload_boundary_counterexample :
    inpC1max.payload_weight_g = genericQuad_published.max_payload_g ∧
    submitted_published id genericQuad_published inpC1max =
      Except.error SimError.infeasible := by
  constructor
  · norm_num [inpC1max, genericQuad_published]
  · norm_num [submitted_published, genericQuad_published, inpC1max, pub_battery2,
      pub_total_draw, pub_total_power_draw, temperature_derate, elevation_adjust,
      calculate_air_density_factor, hybrid_drag_factor, efficiency_penalty,
      pub_result, pub_flight_time]

/-- C1 (amended): a payload strictly above the maximum is always rejected
with the payload-exceeds error; a payload equal to the maximum is never
rejected with that error, and produces a numeric result provided the
adjusted battery is positive and the draw nonzero (the separate
infeasibility abort of C2 can still suppress the result). -/
theorem payload_boundary (pow15 : ℚ → ℚ) (profile : Profile) (inp : FlightInputs) :
    (profile.max_payload_g < inp.payload_weight_g →
      submitted_published pow15 profile inp = Except.error SimError.payloadExceeds) ∧
    (inp.payload_weight_g = profile.max_payload_g →
      submitted_published pow15 profile inp ≠ Except.error SimError.payloadExceeds) ∧
    (inp.payload_weight_g = profile.max_payload_g →
      0 < pub_battery2 profile inp →
      pub_total_draw pow15 profile inp ≠ 0 →
      submitted_published pow15 profile inp =
        Except.ok (pub_result inp.flight_mode inp.flight_speed_kmh
          (pub_battery2 profile inp) (pub_total_draw pow15 profile inp))) := by
  refine ⟨?_, ?_, ?_⟩
  · intro h
    unfold submitted_published
    rw [if_pos h]
  · intro heq
    unfold submitted_published
    rw [if_neg (by rw [heq]; exact lt_irrefl _)]
    split_ifs <;> simp
  · intro heq hB hD
    unfold submitted_published
    rw [if_neg (by rw [heq]; exact lt_irrefl _), if_neg (not_le.mpr hB), if_neg hD]

/-- Witness for the amended C1: over-max payload rejected, max payload with
no climb produces a numeric result. -/
theorem payload_boundary_witness :
    submitted_published id genericQuad_published
      { inpC1ok with payload_weight_g := 801 } =
      Except.error SimError.payloadExceeds ∧
    submitted_published id genericQuad_published inpC1ok =
      Except.ok (pub_result inpC1ok.flight_mode inpC1ok.flight_speed_kmh
        (pub_battery2 genericQuad_published inpC1ok)
        (pub_total_draw id genericQuad_published inpC1ok)) :=
  ⟨(payload_boundary id genericQuad_published
      { inpC1ok with payload_weight_g := 801 }).1
      (by norm_num [inpC1ok, genericQuad_published]),
   (payload_boundary id genericQuad_published inpC1ok).2.2
      (by norm_num [inpC1ok, genericQuad_published])
      (by norm_num [inpC1ok, genericQuad_published, pub_battery2,
        temperature_derate, elevation_adjust])
      (by norm_num [inpC1ok, genericQuad_published, pub_total_draw,
        pub_total_power_draw, temperature_derate, calculate_air_density_factor,
        hybrid_drag_factor, efficiency_penalty])⟩

/-- C2 counterexample: in the hybrid-graph variant a 1000 m climb drives
the derated 1 Wh capacity to -2.27 Wh, yet the handler clamps it to 0.1 Wh
and still reports a flight time and a distance instead of aborting. -/
theorem battery_infeasible_counterexample :
    temperature_derate inpC2hg.temperature_c inpC2hg.battery_capacity_wh +
      compute_elevation_effect
        (genericQuad_hg.base_weight_kg + inpC2hg.payload_weight_g / 1000)
        inpC2hg.elevation_gain_m ≤ 0 ∧
    submitted_hybrid_graph genericQuad_hg inpC2hg true =
      Except.ok { flight_time_minutes := 1 / 28, distance_km := some (1 / 56) } := by
  constructor
  · norm_num [inpC2hg, genericQuad_hg, temperature_derate, compute_elevation_effect,
      GRAVITY]
  · norm_num [submitted_hybrid_graph, genericQuad_hg, inpC2hg, hg_battery2, hg_draw,
      temperature_derate, compute_elevation_effect, GRAVITY, compute_power_draw,
      hybrid_power_model, apply_wind_drag, calculate_flight_time]

/-- C2 (amended): in the published variant the claim holds: whenever the
payload fits but the temperature-derated capacity, after the climb-energy
subtraction, is nonpositive, the handler aborts with the infeasibility
message and no flight time or distance is reported.  The hybrid-graph
variant instead clamps the capacity to 0.1 Wh (see the counterexample). -/
theorem battery_infeasible_abort (pow15 : ℚ → ℚ) (profile : Profile)
    (inp : FlightInputs)
    (hpay : inp.payload_weight_g ≤ profile.max_payload_g)
    (hbat : pub_battery2 profile inp ≤ 0) :
    submitted_published pow15 profile inp = Except.error SimError.infeasible := by
  unfold submitted_published
  rw [if_neg (not_lt.mpr hpay), if_pos hbat]

/-- Witness for the amended C2 on a concrete infeasible climb. -/
theorem battery_infeasible_abort_witness :
    submitted_published id genericQuad_published inpC2pub =
      Except.error SimError.infeasible :=
  battery_infeasible_abort id genericQuad_published inpC2pub
    (by norm_num [inpC2pub, genericQuad_published])
    (by norm_num [inpC2pub, genericQuad_published, pub_battery2,
      temperature_derate, elevation_adjust])

/-- C4 counterexample: with the MQ-9 Reaper (hybrid draw capped at the 2.2
drag factor) on a 1000 m descent, raising the payload from 0 g to the full
1700000 g raises the descent recovery energy while the draw stays at its
cap, so the reported flight time increases from about 35.0 to about 58.0
minutes: a heavier payload with a longer reported endurance. -/
theorem payload_monotone_counterexample :
    submitted_published id mq9Reaper_published inpC4 =
      Except.ok { flight_time_minutes := 846921 / 24200, distance_km := none } ∧
    submitted_published id mq9Reaper_published
        { inpC4 with payload_weight_g := 1700000 } =
      Except.ok { flight_time_minutes := 1402821 / 24200, distance_km := none } ∧
    inpC4.payload_weight_g ≤ 1700000 ∧
    (1700000 : ℚ) ≤ mq9Reaper_published.max_payload_g ∧
    ¬ ((1402821 / 24200 : ℚ) ≤ 846921 / 24200) := by
  refine ⟨?_, ?_, ?_, ?_, ?_⟩
  · norm_num [submitted_published, mq9Reaper_published, inpC4, pub_battery2,
      pub_total_draw, pub_total_power_draw, temperature_derate, elevation_adjust,
      calculate_air_density_factor, hybrid_drag_factor, efficiency_penalty,
      pub_result, pub_flight_time]
  · norm_num [submitted_published, mq9Reaper_published, inpC4, pub_battery2,
      pub_total_draw, pub_total_power_draw, temperature_derate, elevation_adjust,
      calculate_air_density_factor, hybrid_drag_factor, efficiency_penalty,
      pub_result, pub_flight_time]
  · norm_num [inpC4]
  · norm_num [mq9Reaper_published]
  · norm_num

/-- C4 (amended): with no descent (elevation gain nonnegative), increasing
the payload, all other inputs held fixed, never increases the reported
flight time of the published handler; the 1.5-power of the weight is
assumed monotone and positive, as the real function is. -/
theorem payload_monotone_no_descent (pow15 : ℚ → ℚ) (profile : Profile)
    (inp : FlightInputs) (p q : ℚ) (r1 r2 : SimResult)
    (hpq : p ≤ q) (hp : 0 ≤ p)
    (hmono : ∀ x y : ℚ, 0 ≤ x → x ≤ y → pow15 x ≤ pow15 y)
    (hpos : 0 < pow15 (profile.base_weight_kg + p / 1000))
    (hbase : 0 ≤ profile.base_weight_kg)
    (hdw : 0 < profile.draw_watt)
    (hs : 0 ≤ inp.flight_speed_kmh) (hwind : 0 ≤ inp.wind_speed_kmh)
    (halt : 0 ≤ inp.altitude_m) (helev : 0 ≤ inp.elevation_gain_m)
    (h1 : submitted_published pow15 profile {inp with payload_weight_g := p} =
      Except.ok r1)
    (h2 : submitted_published pow15 profile {inp with payload_weight_g := q} =
      Except.ok r2) :
    r2.flight_time_minutes ≤ r1.flight_time_minutes := by
  obtain ⟨-, hB1, -, rfl⟩ := (submitted_published_eq_ok_iff pow15 profile _ r1).mp h1
  obtain ⟨-, hB2, -, rfl⟩ := (submitted_published_eq_ok_iff pow15 profile _ r2).mp h2
  have hw1 : 0 ≤ profile.base_weight_kg + p / 1000 :=
    add_nonneg hbase (by positivity)
  have hw12 : profile.base_weight_kg + p / 1000 ≤ profile.base_weight_kg + q / 1000 := by
    linarith
  have h15 : pow15 (profile.base_weight_kg + p / 1000) ≤
      pow15 (profile.base_weight_kg + q / 1000) := hmono _ _ hw1 hw12
  have hDp : 0 < pub_total_draw pow15 profile {inp with payload_weight_g := p} :=
    pub_total_draw_pos pow15 profile _ hpos hdw hw1 hs hwind halt
  have hD12 : pub_total_draw pow15 profile {inp with payload_weight_g := p} ≤
      pub_total_draw pow15 profile {inp with payload_weight_g := q} :=
    pub_total_draw_mono_payload pow15 profile inp p q hpq h15 (le_of_lt hpos)
      (le_of_lt hdw) hs hwind halt
  have hBle : pub_battery2 profile {inp with payload_weight_g := q} ≤
      pub_battery2 profile {inp with payload_weight_g := p} :=
    pub_battery2_antitone_payload profile inp p q hpq helev
  show pub_flight_time (pub_battery2 profile {inp with payload_weight_g := q})
      (pub_total_draw pow15 profile {inp with payload_weight_g := q}) ≤
    pub_flight_time (pub_battery2 profile {inp with payload_weight_g := p})
      (pub_total_draw pow15 profile {inp with payload_weight_g := p})
  exact pub_flight_time_mono _ _ _ _ hBle (le_of_lt hB2) hDp hD12

/-- Witness for the amended C4: Generic Quad hovering with payloads 0 g and
100 g, flight times 300/17 and 3600/221 minutes. -/
theorem payload_monotone_no_descent_witness :
    (3600 / 221 : ℚ) ≤ 300 / 17 :=
  payload_monotone_no_descent id genericQuad_published inpC4w 0 100
    { flight_time_minutes := 300 / 17, distance_km := none }
    { flight_time_minutes := 3600 / 221, distance_km := none }
    (by norm_num) (le_refl 0)
    (fun x y _ h => h) (by norm_num [genericQuad_published])
    (by norm_num [genericQuad_published]) (by norm_num [genericQuad_published])
    (by norm_num [inpC4w]) (by norm_num [inpC4w]) (by norm_num [inpC4w])
    (by norm_num [inpC4w])
    (by norm_num [submitted_published, genericQuad_published, inpC4w, pub_battery2,
      pub_total_draw, pub_total_power_draw, temperature_derate, elevation_adjust,
      calculate_air_density_factor, hybrid_drag_factor, efficiency_penalty,
      pub_result, pub_flight_time])
    (by norm_num [submitted_published, genericQuad_published, inpC4w, pub_battery2,
      pub_total_draw, pub_total_power_draw, temperature_derate, elevation_adjust,
      calculate_air_density_factor, hybrid_drag_factor, efficiency_penalty,
      pub_result, pub_flight_time])

/-- C5: the temperature derate is the two-threshold step function of the
code (0.9 below 15 C, 0.95 above 35 C, identity in between, shown here at
10 C, 25 C and 40 C on the given capacity), and consequently the 10 C run
of the published handler reports a flight time less than or equal to the
25 C run with identical other inputs. -/
theorem temperature_derate_endurance (pow15 : ℚ → ℚ) (profile : Profile)
    (inp : FlightInputs) (r10 r25 : SimResult)
    (hB : 0 ≤ inp.battery_capacity_wh)
    (hpos : 0 < pow15 (profile.base_weight_kg + inp.payload_weight_g / 1000))
    (hbase : 0 ≤ profile.base_weight_kg) (hpay : 0 ≤ inp.payload_weight_g)
    (hdw : 0 < profile.draw_watt)
    (hs : 0 ≤ inp.flight_speed_kmh) (hwind : 0 ≤ inp.wind_speed_kmh)
    (halt : 0 ≤ inp.altitude_m)
    (h10 : submitted_published pow15 profile {inp with temperature_c := 10} =
      Except.ok r10)
    (h25 : submitted_published pow15 profile {inp with temperature_c := 25} =
      Except.ok r25) :
    temperature_derate 10 inp.battery_capacity_wh =
      inp.battery_capacity_wh * 0.9 ∧
    temperature_derate 25 inp.battery_capacity_wh = inp.battery_capacity_wh ∧
    temperature_derate 40 inp.battery_capacity_wh =
      inp.battery_capacity_wh * 0.95 ∧
    r10.flight_time_minutes ≤ r25.flight_time_minutes := by
  refine ⟨by norm_num [temperature_derate], by norm_num [temperature_derate],
    by norm_num [temperature_derate], ?_⟩
  obtain ⟨-, hB10, -, rfl⟩ := (submitted_published_eq_ok_iff pow15 profile _ r10).mp h10
  obtain ⟨-, hB25, -, rfl⟩ := (submitted_published_eq_ok_iff pow15 profile _ r25).mp h25
  have hD : 0 < pub_total_draw pow15 profile {inp with temperature_c := 10} :=
    pub_total_draw_pos pow15 profile _ hpos hdw
      (add_nonneg hbase (by positivity)) hs hwind halt
  have hBle : pub_battery2 profile {inp with temperature_c := 10} ≤
      pub_battery2 profile {inp with temperature_c := 25} := by
    unfold pub_battery2
    refine elevation_adjust_mono_battery _ _ _ _ ?_
    show temperature_derate 10 inp.battery_capacity_wh ≤
      temperature_derate 25 inp.battery_capacity_wh
    norm_num [temperature_derate]
    linarith
  have hDeq : pub_total_draw pow15 profile {inp with temperature_c := 25} =
      pub_total_draw pow15 profile {inp with temperature_c := 10} := rfl
  show pub_flight_time (pub_battery2 profile {inp with temperature_c := 10})
      (pub_total_draw pow15 profile {inp with temperature_c := 10}) ≤
    pub_flight_time (pub_battery2 profile {inp with temperature_c := 25})
      (pub_total_draw pow15 profile {inp with temperature_c := 25})
  rw [hDeq]
  exact pub_flight_time_mono _ _ _ _ hBle (le_of_lt hB10) hD le_rfl

/-- Witness for C5: Generic Quad hovering at 10 C vs 25 C, flight times
270/17 and 300/17 minutes. -/
theorem temperature_derate_endurance_witness :
    (270 / 17 : ℚ) ≤ 300 / 17 :=
  (temperature_derate_endurance id genericQuad_published inpC5
    { flight_time_minutes := 270 / 17, distance_km := none }
    { flight_time_minutes := 300 / 17, distance_km := none }
    (by norm_num [inpC5])
    (by norm_num [genericQuad_published, inpC5])
    (by norm_num [genericQuad_published])
    (by norm_num [inpC5])
    (by norm_num [genericQuad_published])
    (by norm_num [inpC5]) (by norm_num [inpC5]) (by norm_num [inpC5])
    (by norm_num [submitted_published, genericQuad_published, inpC5, pub_battery2,
      pub_total_draw, pub_total_power_draw, temperature_derate, elevation_adjust,
      calculate_air_density_factor, hybrid_drag_factor, efficiency_penalty,
      pub_result, pub_flight_time])
    (by norm_num [submitted_published, genericQuad_published, inpC5, pub_battery2,
      pub_total_draw, pub_total_power_draw, temperature_derate, elevation_adjust,
      calculate_air_density_factor, hybrid_drag_factor, efficiency_penalty,
      pub_result, pub_flight_time])).2.2.2

/-- On the documented troposphere domain (altitude up to 11 km, sea-level
temperature above -200 C) the ISA density formula reduces to a constant
times the barometric base raised to the exponent minus one. -/
theorem air_density_eq_of_dom (a t : ℚ) (h0 : 0 ≤ a) (hhi : a ≤ 11000)
    (ht : -200 ≤ t) :
    air_density a t =
      (P0 : ℝ) / ((R_AIR : ℝ) * ((t : ℝ) + 273.15)) *
        (1 - (LAPSE : ℝ) * (a : ℝ) / ((t : ℝ) + 273.15)) ^
          ((G0 : ℝ) / ((R_AIR : ℝ) * (LAPSE : ℝ)) - 1) := by
  have hLr : (LAPSE : ℝ) = 0.0065 := by norm_num [LAPSE]
  have hRr : (R_AIR : ℝ) = 287.05 := by norm_num [R_AIR]
  have hGr : (G0 : ℝ) = 9.80665 := by norm_num [G0]
  have hPr : (P0 : ℝ) = 101325 := by norm_num [P0]
  have ha : (0 : ℝ) ≤ (a : ℝ) := by exact_mod_cast h0
  have hhiR : (a : ℝ) ≤ 11000 := by exact_mod_cast hhi
  have htR : (-200 : ℝ) ≤ (t : ℝ) := by exact_mod_cast ht
  unfold air_density
  dsimp only
  rw [if_neg (not_lt.mpr ha)]
  rw [hLr, hRr, hGr, hPr]
  have hTa : (1 : ℝ) ≤ (t : ℝ) + 273.15 - 0.0065 * (a : ℝ) := by linarith
  have hT0 : (0 : ℝ) < (t : ℝ) + 273.15 := by linarith
  have hx : (0 : ℝ) < 1 - 0.0065 * (a : ℝ) / ((t : ℝ) + 273.15) := by
    rw [sub_pos, div_lt_one hT0]
    linarith
  rw [max_eq_right (by linarith)]
  have hTx : (t : ℝ) + 273.15 - 0.0065 * (a : ℝ) =
      ((t : ℝ) + 273.15) * (1 - 0.0065 * (a : ℝ) / ((t : ℝ) + 273.15)) := by
    field_simp
  rw [hTx]
  have hxk : (1 - 0.0065 * (a : ℝ) / ((t : ℝ) + 273.15)) ^
      ((9.80665 : ℝ) / (287.05 * 0.0065)) =
      (1 - 0.0065 * (a : ℝ) / ((t : ℝ) + 273.15)) ^
        ((9.80665 : ℝ) / (287.05 * 0.0065) - 1) *
      (1 - 0.0065 * (a : ℝ) / ((t : ℝ) + 273.15)) ^ (1 : ℝ) := by
    rw [← Real.rpow_add hx]
    congr 1
    ring
  rw [hxk, Real.rpow_one]
  have hxne : 1 - 0.0065 * (a : ℝ) / ((t : ℝ) + 273.15) ≠ 0 := ne_of_gt hx
  have hT0ne : (t : ℝ) + 273.15 ≠ 0 := ne_of_gt hT0
  field_simp
  ring

/-- C6: increasing the altitude never increases the computed air density,
in the ISA barometric model of the aerospace variant (on its documented
troposphere domain, up to 11 km, with a sea-level temperature above
-200 C) and in the linear air-density-factor model (globally). -/
theorem air_density_altitude_antitone (t a1 a2 : ℚ) (h0 : 0 ≤ a1)
    (h12 : a1 ≤ a2) (hhi : a2 ≤ 11000) (ht : -200 ≤ t) :
    air_density a2 t ≤ air_density a1 t ∧
    calculate_air_density_factor a2 ≤ calculate_air_density_factor a1 := by
  constructor
  · rw [air_density_eq_of_dom a1 t h0 (le_trans h12 hhi) ht,
      air_density_eq_of_dom a2 t (le_trans h0 h12) hhi ht]
    have hLr : (LAPSE : ℝ) = 0.0065 := by norm_num [LAPSE]
    have hRr : (R_AIR : ℝ) = 287.05 := by norm_num [R_AIR]
    have hGr : (G0 : ℝ) = 9.80665 := by norm_num [G0]
    have hPr : (P0 : ℝ) = 101325 := by norm_num [P0]
    rw [hLr, hRr, hGr, hPr]
    have ha1 : (0 : ℝ) ≤ (a1 : ℝ) := by exact_mod_cast h0
    have ha12 : (a1 : ℝ) ≤ (a2 : ℝ) := by exact_mod_cast h12
    have hhiR : (a2 : ℝ) ≤ 11000 := by exact_mod_cast hhi
    have htR : (-200 : ℝ) ≤ (t : ℝ) := by exact_mod_cast ht
    have hT0 : (0 : ℝ) < (t : ℝ) + 273.15 := by linarith
    have hx2 : (0 : ℝ) < 1 - 0.0065 * (a2 : ℝ) / ((t : ℝ) + 273.15) := by
      rw [sub_pos, div_lt_one hT0]
      linarith
    have hx12 : 1 - 0.0065 * (a2 : ℝ) / ((t : ℝ) + 273.15) ≤
        1 - 0.0065 * (a1 : ℝ) / ((t : ℝ) + 273.15) := by
      have hdiv : (0.0065 : ℝ) * (a1 : ℝ) / ((t : ℝ) + 273.15) ≤
          0.0065 * (a2 : ℝ) / ((t : ℝ) + 273.15) :=
        (div_le_div_right hT0).mpr (by linarith)
      linarith
    have hexp : (0 : ℝ) ≤ (9.80665 : ℝ) / (287.05 * 0.0065) - 1 := by norm_num
    have hpow := Real.rpow_le_rpow (le_of_lt hx2) hx12 hexp
    have hC : (0 : ℝ) ≤ (101325 : ℝ) / (287.05 * ((t : ℝ) + 273.15)) := by
      have hden : (0 : ℝ) < 287.05 * ((t : ℝ) + 273.15) := by nlinarith
      exact div_nonneg (by norm_num) (le_of_lt hden)
    exact mul_le_mul_of_nonneg_left hpow hC
  · show max (0.6 : ℚ) (1 - 0.01 * (a2 / 100)) ≤ max 0.6 (1 - 0.01 * (a1 / 100))
    exact max_le_max le_rfl (by linarith)

/-- Witness for C6 at sea level versus 1000 m. -/
theorem air_density_altitude_antitone_witness :
    air_density 1000 15 ≤ air_density 0 15 ∧
    calculate_air_density_factor 1000 ≤ calculate_air_density_factor 0 :=
  air_density_altitude_antitone 15 0 1000 (by norm_num) (by norm_num)
    (by norm_num) (by norm_num)
